import Mathlib

/-!
Verification of the provider-abstraction and configuration-resolution layer
of riot-pulse (`riot_pulse/llm/`): `config.py` (layered configuration and
deep merge), `providers.py` (registry and factory), `base.py` (provider base
class and response envelope), and the OpenAI / Anthropic adapters.

Python values are embedded as the inductive `PyVal`; Python dictionaries and
attribute objects are association lists with Python dict update semantics
(assignment to an existing key keeps its position, a new key is appended).
Python exceptions are values of `PyErr` and fallible code returns `Except`.
-/

set_option maxHeartbeats 1000000

namespace RiotPulse

/-- Embedded Python value: `None`, strings, integers, booleans, lists, and
attribute objects / dictionaries (association lists keyed by strings). -/
inductive PyVal where
  | none : PyVal
  | str : String → PyVal
  | int : Int → PyVal
  | bool : Bool → PyVal
  | list : List PyVal → PyVal
  | obj : List (String × PyVal) → PyVal

/-- A Python dictionary with string keys (also used for attribute objects). -/
abbrev Dict := List (String × PyVal)

/-- First-match association-list lookup: `d.get(k)` / `d[k]`. -/
def lookupA {α : Type} (d : List (String × α)) (k : String) : Option α :=
  match d with
  | [] => Option.none
  | (k₀, v₀) :: rest => if k₀ = k then some v₀ else lookupA rest k

/-- Python dict assignment `d[k] = v`: an existing key keeps its position and
gets the new value, a fresh key is appended at the end. -/
def setA {α : Type} (d : List (String × α)) (k : String) (v : α) : List (String × α) :=
  match d with
  | [] => [(k, v)]
  | (k₀, v₀) :: rest => if k₀ = k then (k₀, v) :: rest else (k₀, v₀) :: setA rest k v

/-- The keys of a dictionary, in order. -/
def keysA {α : Type} (d : List (String × α)) : List String := d.map Prod.fst

/-- Keys are pairwise distinct — the invariant every genuine Python dict has. -/
def keysNodup {α : Type} (d : List (String × α)) : Prop := (keysA d).Nodup

instance {α : Type} (d : List (String × α)) : Decidable (keysNodup d) := by
  unfold keysNodup; infer_instance

/-- Python `s.lower()` (ASCII case folding, which covers every name the
program lower-cases). -/
def pyLower (s : String) : String := ⟨s.data.map Char.toLower⟩

/-- Python truthiness of an embedded value (`if value:`). -/
def PyVal.truthy : PyVal → Bool
  | .none => false
  | .str s => s != ""
  | .int n => n != 0
  | .bool b => b
  | .list xs => !xs.isEmpty
  | .obj fs => !fs.isEmpty

/-- Python `sep.join(strings)`. -/
def joinSep (sep : String) : List String → String
  | [] => ""
  | [x] => x
  | x :: y :: rest => x ++ sep ++ joinSep sep (y :: rest)

mutual
/-- Model of Python `str(value)`: a deterministic stringification. Strings
stringify to themselves; composite values get a structural rendering. -/
def pyStr : PyVal → String
  | .none => "None"
  | .str s => s
  | .int n => toString n
  | .bool b => if b then "True" else "False"
  | .list xs => "[" ++ pyStrList xs ++ "]"
  | .obj fs => "obj(" ++ pyStrFields fs ++ ")"

/-- Stringification of the elements of an embedded list, comma separated. -/
def pyStrList : List PyVal → String
  | [] => ""
  | [x] => pyStr x
  | x :: y :: rest => pyStr x ++ ", " ++ pyStrList (y :: rest)

/-- Stringification of the fields of an embedded object, comma separated. -/
def pyStrFields : List (String × PyVal) → String
  | [] => ""
  | [(k, v)] => k ++ ": " ++ pyStr v
  | (k, v) :: f :: rest => k ++ ": " ++ pyStr v ++ ", " ++ pyStrFields (f :: rest)
end

/-- `LLMConfig._get_defaults` (`config.py`): the built-in default layer. -/
def getDefaults : Dict :=
  [("llm", .obj
    [("provider", .str "perplexity"),
     ("perplexity", .obj [("model", .str "sonar-pro")]),
     ("openai", .obj [("model", .str "gpt-4-turbo-preview")]),
     ("anthropic", .obj [("model", .str "claude-3-opus-20240229")]),
     ("xai", .obj [("model", .str "grok-1")])])]

mutual
/-- One iteration of the `for key, value in override.items()` loop of
`LLMConfig._merge_configs` (`config.py`): if both the current result value at
`k` and the override value are dictionaries they are merged recursively,
otherwise the override value replaces the result value. -/
def mergeEntry (base : Dict) (k : String) (v : PyVal) : Dict :=
  match v with
  | PyVal.obj o =>
    match lookupA base k with
    | some (PyVal.obj b) => setA base k (PyVal.obj (mergeConfigs b o))
    | _ => setA base k (PyVal.obj o)
  | v => setA base k v
termination_by sizeOf v

/-- `LLMConfig._merge_configs` (`config.py`): recursive dictionary merge —
start from a copy of `base` and fold the loop body `mergeEntry` over the
entries of `override` in order. -/
def mergeConfigs (base : Dict) (override : Dict) : Dict :=
  match override with
  | [] => base
  | (k, v) :: rest => mergeConfigs (mergeEntry base k v) rest
termination_by sizeOf override
end

/-- `LLMConfig._load_env_config` (`config.py`): builds the environment layer
from `LLM_PROVIDER` and `LLM_MODEL` (`none` models an unset variable; an empty
string is falsy and is skipped like an unset one). When `LLM_MODEL` is set, the
provider key used is read from this very layer, defaulting to `"perplexity"`
when `LLM_PROVIDER` did not populate it. -/
def loadEnvConfig (envProvider envModel : Option String) : Dict :=
  let config : Dict := []
  let config :=
    match envProvider with
    | some p => if p != "" then setA config "llm" (.obj [("provider", .str p)]) else config
    | Option.none => config
  match envModel with
  | some m =>
    if m != "" then
      let config : Dict :=
        match lookupA config "llm" with
        | some _ => config
        | Option.none => setA config "llm" (.obj [])
      let llmFields : Dict :=
        match lookupA config "llm" with
        | some (.obj fs) => fs
        | _ => []
      let provider : String :=
        match lookupA llmFields "provider" with
        | some (.str s) => s
        | _ => "perplexity"
      setA config "llm" (.obj (setA llmFields provider (.obj [("model", .str m)])))
    else config
  | Option.none => config

/-- `LLMConfig._load_config` (`config.py`): defaults, then the parsed YAML
layer (when a file was found and parsed; an empty parse result is falsy and
skipped), then the environment layer, merged with `_merge_configs`. -/
def loadConfig (yamlConfig : Option Dict) (envConfig : Dict) : Dict :=
  let config := getDefaults
  let config :=
    match yamlConfig with
    | some y => if y.isEmpty then config else mergeConfigs config y
    | Option.none => config
  mergeConfigs config envConfig

/-- The provider-name → credential-variable table of `LLMConfig._get_api_key`. -/
def envVarMap (provider : String) : Option String :=
  lookupA
    [("perplexity", "PERPLEXITY_API_KEY"), ("openai", "OPENAI_API_KEY"),
     ("anthropic", "ANTHROPIC_API_KEY"), ("xai", "XAI_API_KEY")] provider

/-- `LLMConfig._get_api_key` (`config.py`), over an explicit environment
`env : String → Option String` modelling `os.getenv`. -/
def getApiKey (env : String → Option String) (provider : String) : Option String :=
  match envVarMap (pyLower provider) with
  | some v => env v
  | Option.none => Option.none

/-- The `{name, config}` pair produced by configuration resolution. -/
structure ResolvedSelection where
  name : String
  config : Dict

/-- `config.get("llm", {})` read as a dictionary (a non-dictionary value at
`llm` does not occur in resolved configurations and is read as empty). -/
def llmSection (d : Dict) : Dict :=
  match lookupA d "llm" with
  | some (PyVal.obj fs) => fs
  | _ => []

/-- `LLMConfig.get_provider_config` (`config.py`): select the provider named
by `llm.provider` (default `"perplexity"`), copy its sub-config, and inject
`api_key` from the credential environment variable when that is set to a
truthy value. Non-dictionary values at `llm` or at the provider key do not
occur in resolved configurations and are read as empty. -/
def getProviderConfig (config : Dict) (env : String → Option String) : ResolvedSelection :=
  let llmFields : Dict := llmSection config
  let providerName : String :=
    match lookupA llmFields "provider" with
    | some (.str s) => s
    | _ => "perplexity"
  let providerConfig : Dict :=
    match lookupA llmFields providerName with
    | some (.obj fs) => fs
    | _ => []
  let providerConfig :=
    match getApiKey env providerName with
    | some key => if key != "" then setA providerConfig "api_key" (.str key) else providerConfig
    | Option.none => providerConfig
  ⟨providerName, providerConfig⟩

/-- Python `d.update(overrides)`: assign every key of `overrides` in order. -/
def dictUpdate (d : Dict) (overrides : Dict) : Dict :=
  overrides.foldl (fun acc kv => setA acc kv.1 kv.2) d

/-- The configuration-resolution part of `get_llm_provider` (`providers.py`):
`LLMConfig` resolution followed by the CLI overrides — a truthy provider
override replaces the name and updates the config with that provider's
sub-config from the merged configuration; a truthy model override assigns
`model` directly. The result is the pair handed to
`LLMProviderRegistry.get_provider`. -/
def getLlmProviderSelection (config : Dict) (env : String → Option String)
    (providerOverride modelOverride : Option String) : ResolvedSelection :=
  let pc := getProviderConfig config env
  let pc :=
    match providerOverride with
    | some ov =>
      if ov != "" then
        let providerSpecific : Dict :=
          match lookupA (llmSection config) ov with
          | some (.obj sp) => sp
          | _ => []
        ⟨ov, dictUpdate pc.config providerSpecific⟩
      else pc
    | Option.none => pc
  match modelOverride with
  | some m => if m != "" then ⟨pc.name, setA pc.config "model" (.str m)⟩ else pc
  | Option.none => pc

/-- Embedded Python exceptions. `providerQueryError` is the wrapper named by
the specification's error taxonomy; it is part of the error model so that
statements about wrapping can be expressed — the code never constructs it. -/
inductive PyErr where
  | valueError : String → PyErr
  | typeError : String → PyErr
  | providerQueryError : PyErr → PyErr
  | other : String → PyErr
  deriving DecidableEq

/-- Attribute access on an embedded value; only objects expose the response
attributes the adapters probe for. -/
def PyVal.attr? : PyVal → String → Option PyVal
  | .obj fs, n => lookupA fs n
  | _, _ => Option.none

/-- Python `hasattr(value, n)` for the attribute names the adapters probe. -/
def hasattr (v : PyVal) (n : String) : Bool := (v.attr? n).isSome

/-- Attribute access `value.n` once `hasattr` has succeeded. -/
def attrD (v : PyVal) (n : String) : PyVal := (v.attr? n).getD .none

/-- Python `value[0]`: first element of a list or string, `TypeError` on a
non-indexable value, `IndexError` when empty. -/
def pyIndex0 : PyVal → Except PyErr PyVal
  | .list (x :: _) => .ok x
  | .list [] => .error (.other "IndexError: list index out of range")
  | .str s =>
    match s.toList with
    | c :: _ => .ok (.str (String.mk [c]))
    | [] => .error (.other "IndexError: string index out of range")
  | _ => .error (.typeError "object is not subscriptable")

/-- A single-quote character, for building the exact source error messages. -/
def sq : String := String.mk [Char.ofNat 39]

/-- `type(value).__name__` for embedded values. -/
def typeName : PyVal → String
  | .none => "NoneType"
  | .str _ => "str"
  | .int _ => "int"
  | .bool _ => "bool"
  | .list _ => "list"
  | .obj _ => "object"

/-- The normalized response dataclass `LLMResponse` (`base.py`). The `content`
slot holds an embedded Python value because the dataclass does not enforce its
annotation; the invariant claims are about which values actually reach it. -/
structure LLMResponse where
  content : PyVal
  provider : String
  model : PyVal
  usage : Option Dict := Option.none
  metadata : Option Dict := Option.none

/-- `OpenAIAdapter._extract_content` (`adapters/openai.py`): probe `content`,
`text`, `message`, `result`, then a truthy `choices`, in that order, and
stringify the first hit; inside a truthy `choices`, use `choices[0].message.content`
or `choices[0].text`. `ok (some s)` models returning the Python string `s`;
`ok none` models falling off the end and implicitly returning Python `None`
(a truthy `choices` whose first element matches neither probe); the whole
object is stringified only when none of the five attributes is present (or
`choices` is falsy). -/
def openaiExtractContent (response : PyVal) : Except PyErr (Option String) :=
  if hasattr response "content" then
    .ok (some (pyStr (attrD response "content")))
  else if hasattr response "text" then
    .ok (some (pyStr (attrD response "text")))
  else if hasattr response "message" then
    .ok (some (pyStr (attrD response "message")))
  else if hasattr response "result" then
    .ok (some (pyStr (attrD response "result")))
  else if hasattr response "choices" && (attrD response "choices").truthy then
    match pyIndex0 (attrD response "choices") with
    | .error e => .error e
    | .ok choice =>
      if hasattr choice "message" && hasattr (attrD choice "message") "content" then
        .ok (some (pyStr (attrD (attrD choice "message") "content")))
      else if hasattr choice "text" then
        .ok (some (pyStr (attrD choice "text")))
      else
        .ok Option.none
  else
    .ok (some (pyStr response))

/-- `AnthropicAdapter._extract_content` (`adapters/anthropic.py`): probe
`content` (with the multi-block special case: a non-empty list takes the
first block's `text`, else stringifies the first block), then `text`,
`message`, `result`, else stringify the whole object. There is no `choices`
step. Every path returns a string. -/
def anthropicExtractContent (response : PyVal) : String :=
  if hasattr response "content" then
    match attrD response "content" with
    | .list (x :: _) => if hasattr x "text" then pyStr (attrD x "text") else pyStr x
    | c => pyStr c
  else if hasattr response "text" then
    pyStr (attrD response "text")
  else if hasattr response "message" then
    pyStr (attrD response "message")
  else if hasattr response "result" then
    pyStr (attrD response "result")
  else
    pyStr response

/-- The supported-model list declared by `OpenAIAdapter.supported_models`. -/
def openaiSupportedModels : List String :=
  ["gpt-4", "gpt-4-turbo-preview", "gpt-4-turbo", "gpt-4o", "gpt-4o-mini",
   "gpt-3.5-turbo", "gpt-3.5-turbo-16k"]

/-- `OpenAIAdapter.default_model`. -/
def openaiDefaultModel : String := "gpt-4-turbo-preview"

/-- The supported-model list declared by `AnthropicAdapter.supported_models`. -/
def anthropicSupportedModels : List String :=
  ["claude-3-opus-20240229", "claude-3-sonnet-20240229", "claude-3-haiku-20240307",
   "claude-3-5-sonnet-20241022", "claude-3-5-haiku-20241022"]

/-- `AnthropicAdapter.default_model`. -/
def anthropicDefaultModel : String := "claude-3-opus-20240229"

/-- `BaseLLMProvider.model`: `self.config.get("model", self.default_model)` —
the raw configured value, or the declared default when the key is absent. -/
def modelOf (config : Dict) (defaultModel : String) : PyVal :=
  (lookupA config "model").getD (.str defaultModel)

/-- Python `value in models` for a list of string literals: only an equal
string is a member. -/
def modelInList (m : PyVal) (models : List String) : Bool :=
  match m with
  | .str s => models.contains s
  | _ => false

/-- `OpenAIAdapter.validate_config` (`adapters/openai.py`): `ValueError` when
`config.get("api_key")` is falsy, then when the effective model is not in the
supported list; otherwise returns `True`. -/
def openaiValidateConfig (config : Dict) : Except PyErr Bool :=
  if ((lookupA config "api_key").getD .none).truthy = false then
    .error (.valueError
      ("OpenAI API key is required. Set OPENAI_API_KEY environment variable or provide "
        ++ sq ++ "api_key" ++ sq ++ " in configuration."))
  else if modelInList (modelOf config openaiDefaultModel) openaiSupportedModels = false then
    .error (.valueError
      ("Unsupported OpenAI model: " ++ pyStr (modelOf config openaiDefaultModel)
        ++ ". Supported models: " ++ joinSep ", " openaiSupportedModels))
  else
    .ok true

/-- The `OpenAIAdapter` state after `BaseLLMProvider.__init__` stored the
configuration. -/
structure OpenAIAdapter where
  config : Dict

/-- The `AnthropicAdapter` state after `BaseLLMProvider.__init__` stored the
configuration. -/
structure AnthropicAdapter where
  config : Dict

/-- `OpenAIAdapter` construction through `BaseLLMProvider.__init__`
(`base.py`): store the config, then `_validate_config`, which invokes
`validate_config` at its single call site and raises `ValueError` when it
returns a falsy value. The second component counts the `validate_config`
invocations performed during construction. -/
def openaiInit (config : Dict) : Except PyErr OpenAIAdapter × Nat :=
  let validation : Except PyErr Bool × Nat := (openaiValidateConfig config, 1)
  (match validation.1 with
   | .error e => .error e
   | .ok ok =>
     if ok then .ok ⟨config⟩
     else .error (.valueError "Invalid configuration for openai provider"),
   validation.2)

/-- `OpenAIAdapter.query` (`adapters/openai.py`), with the remote call's
outcome supplied as `remote`: on success, extract the content, build the
envelope, and log its length — `len(content)` raises `TypeError` when the
extracted content is Python `None`, so such an envelope never leaves the
method; any exception is logged and re-raised unchanged. -/
def openaiQuery (a : OpenAIAdapter) (remote : Except PyErr PyVal) :
    Except PyErr LLMResponse :=
  match remote with
  | .error e => .error e
  | .ok response =>
    match openaiExtractContent response with
    | .error e => .error e
    | .ok (some s) =>
      .ok { content := .str s, provider := "openai",
            model := modelOf a.config openaiDefaultModel,
            metadata := some [("raw_response", response),
                              ("response_type", .str (typeName response))] }
    | .ok Option.none => .error (.typeError "object of type NoneType has no len()")

/-- `AnthropicAdapter.query` (`adapters/anthropic.py`): same shape as the
OpenAI one; its extraction returns a string on every path. -/
def anthropicQuery (a : AnthropicAdapter) (remote : Except PyErr PyVal) :
    Except PyErr LLMResponse :=
  match remote with
  | .error e => .error e
  | .ok response =>
    .ok { content := .str (anthropicExtractContent response), provider := "anthropic",
          model := modelOf a.config anthropicDefaultModel,
          metadata := some [("raw_response", response),
                            ("response_type", .str (typeName response))] }

/-- `LLMProviderRegistry._providers` (`providers.py`): the class-level
name → constructor dictionary, polymorphic in the constructed provider type. -/
def Registry (π : Type) : Type := List (String × (Dict → π))

/-- `LLMProviderRegistry.register`: store the lower-cased name; re-registration
overwrites silently. -/
def registerProvider {π : Type} (r : Registry π) (name : String) (ctor : Dict → π) :
    Registry π :=
  setA r (pyLower name) ctor

/-- `LLMProviderRegistry.list_providers`. -/
def listProviders {π : Type} (r : Registry π) : List String := keysA r

/-- `LLMProviderRegistry.get_provider`: look up the lower-cased name; on a miss
raise `ValueError` naming the requested provider and listing the registered
names; on a hit construct the provider with exactly the given config. -/
def getProviderR {π : Type} (r : Registry π) (name : String) (config : Dict) :
    Except PyErr π :=
  match lookupA r (pyLower name) with
  | some ctor => .ok (ctor config)
  | Option.none =>
    .error (.valueError
      ("Unknown LLM provider: " ++ sq ++ name ++ sq ++ ". Available providers: "
        ++ joinSep ", " (keysA r)))

/-- Whether an embedded value is a dictionary (`isinstance(v, dict)`). -/
def isObj : PyVal → Bool
  | .obj _ => true
  | _ => false

/-- The outcome of `_merge_configs` at a single key, as a function of the two
sides' values there. -/
def mergeAt (bv ov : Option PyVal) : Option PyVal :=
  match bv, ov with
  | some (PyVal.obj b), some (PyVal.obj o) => some (PyVal.obj (mergeConfigs b o))
  | _, some v => some v
  | some v, Option.none => some v
  | Option.none, Option.none => Option.none

/-- The value a layer defines at a key, when defined, is not a dictionary. -/
def notObjAt (d : Dict) (k : String) : Bool :=
  !isObj ((lookupA d k).getD PyVal.none)

/-- Point update of the modelled environment (`os.getenv` table). -/
def updEnv (env : String → Option String) (v : String) (w : Option String) :
    String → Option String :=
  fun x => if x = v then w else env x

/-! ### Generic dictionary lemmas -/

theorem lookupA_setA_same {α : Type} (d : List (String × α)) (k : String) (v : α) :
    lookupA (setA d k v) k = some v := by
  induction d with
  | nil => simp [setA, lookupA]
  | cons hd tl ih =>
    obtain ⟨k₀, v₀⟩ := hd
    by_cases h : k₀ = k <;> simp [setA, lookupA, h, ih]

theorem lookupA_setA_ne {α : Type} (d : List (String × α)) (k k₂ : String) (v : α)
    (hne : k ≠ k₂) : lookupA (setA d k v) k₂ = lookupA d k₂ := by
  induction d with
  | nil => simp [setA, lookupA, hne]
  | cons hd tl ih =>
    obtain ⟨k₀, v₀⟩ := hd
    by_cases h : k₀ = k
    · subst h; simp [setA, lookupA, hne]
    · simp [setA, lookupA, h, ih]

theorem lookupA_eq_none_of_not_mem {α : Type} (d : List (String × α)) (k : String)
    (h : k ∉ keysA d) : lookupA d k = Option.none := by
  induction d with
  | nil => rfl
  | cons hd tl ih =>
    obtain ⟨k₀, v₀⟩ := hd
    simp only [keysA, List.map_cons, List.mem_cons, not_or] at h
    have hne : k₀ ≠ k := fun he => h.1 he.symm
    simpa [lookupA, hne] using ih (by simpa [keysA] using h.2)

/-! ### Key-wise characterisation of the recursive merge -/

@[simp] theorem mergeAt_none_right (bv : Option PyVal) : mergeAt bv Option.none = bv := by
  rcases bv with _ | v
  · rfl
  · rcases v <;> rfl

theorem lookupA_mergeEntry_same (base : Dict) (k : String) (v : PyVal) :
    lookupA (mergeEntry base k v) k = mergeAt (lookupA base k) (some v) := by
  rcases hb : lookupA base k with _ | bv
  · rcases v <;> simp [mergeEntry, mergeAt, hb, lookupA_setA_same]
  · rcases bv <;> rcases v <;> simp [mergeEntry, mergeAt, hb, lookupA_setA_same]

theorem lookupA_mergeEntry_ne (base : Dict) (k₀ k : String) (v : PyVal)
    (hne : k₀ ≠ k) : lookupA (mergeEntry base k₀ v) k = lookupA base k := by
  rcases hb : lookupA base k₀ with _ | bv
  · rcases v <;> simp [mergeEntry, hb, lookupA_setA_ne _ _ _ _ hne]
  · rcases bv <;> rcases v <;> simp [mergeEntry, hb, lookupA_setA_ne _ _ _ _ hne]

theorem lookupA_mergeConfigs (base override : Dict) (k : String)
    (h : keysNodup override) :
    lookupA (mergeConfigs base override) k = mergeAt (lookupA base k) (lookupA override k) := by
  induction override generalizing base with
  | nil => simp [mergeConfigs, lookupA]
  | cons hd rest ih =>
    obtain ⟨k₀, v₀⟩ := hd
    have hparts := List.nodup_cons.mp (show (k₀ :: keysA rest).Nodup by
      simpa [keysNodup, keysA] using h)
    have hnodup : keysNodup rest := hparts.2
    rw [mergeConfigs, ih _ hnodup]
    by_cases hkk : k₀ = k
    · subst hkk
      have hrest : lookupA rest k₀ = Option.none :=
        lookupA_eq_none_of_not_mem rest k₀ hparts.1
      rw [hrest, mergeAt_none_right, lookupA_mergeEntry_same]
      simp [lookupA]
    · rw [lookupA_mergeEntry_ne base k₀ k v₀ hkk]
      simp [lookupA, hkk]

theorem mergeAt_some_of_not_obj (bv : Option PyVal) (v : PyVal) (h : isObj v = false) :
    mergeAt bv (some v) = some v := by
  rcases bv with _ | b
  · rcases v <;> simp_all [mergeAt, isObj]
  · rcases b <;> rcases v <;> simp_all [mergeAt, isObj]

theorem lookupA_mergeConfigs_not_overridden (base override : Dict) (k : String)
    (hnone : lookupA override k = Option.none) :
    lookupA (mergeConfigs base override) k = lookupA base k := by
  induction override generalizing base with
  | nil => rw [mergeConfigs]
  | cons hd rest ih =>
    obtain ⟨k₀, v₀⟩ := hd
    rw [mergeConfigs]
    by_cases hkk : k₀ = k
    · simp [lookupA, hkk] at hnone
    · rw [ih _ (by simpa [lookupA, hkk] using hnone), lookupA_mergeEntry_ne base k₀ k v₀ hkk]

theorem lookupA_dictUpdate_not_overridden (d o : Dict) (k : String)
    (hnone : lookupA o k = Option.none) :
    lookupA (dictUpdate d o) k = lookupA d k := by
  induction o generalizing d with
  | nil => rfl
  | cons hd rest ih =>
    obtain ⟨k₀, v₀⟩ := hd
    by_cases hkk : k₀ = k
    · simp [lookupA, hkk] at hnone
    · show lookupA (dictUpdate (setA d k₀ v₀) rest) k = lookupA d k
      rw [ih _ (by simpa [lookupA, hkk] using hnone), lookupA_setA_ne d k₀ k v₀ hkk]

/-! ### C5 — deep-merge semantics -/

/-- Claim C5: the recursive merge of `_merge_configs` is non-destructive for
keys the override does not define (they keep the base's value); merging
a-to-(x:1) with a-to-(y:2) yields a-to-(x:1, y:2), preserving keys absent
from the override; and merging a-to-(x:1) with a-to-5 yields a-to-5 (a
scalar override replaces the whole mapping). The embedding is pure,
mirroring the source's copy-before-assign: the base dictionary value is
left untouched. -/
theorem c5_deep_merge_semantics :
    (∀ (base override : Dict) (k : String),
        lookupA override k = Option.none →
        lookupA (mergeConfigs base override) k = lookupA base k) ∧
    mergeConfigs [("a", PyVal.obj [("x", PyVal.int 1)])] [("a", PyVal.obj [("y", PyVal.int 2)])]
      = [("a", PyVal.obj [("x", PyVal.int 1), ("y", PyVal.int 2)])] ∧
    mergeConfigs [("a", PyVal.obj [("x", PyVal.int 1)])] [("a", PyVal.int 5)]
      = [("a", PyVal.int 5)] := by
  refine ⟨lookupA_mergeConfigs_not_overridden, ?_, ?_⟩ <;>
    simp [mergeConfigs, mergeEntry, lookupA, setA]

/-- Witness for C5: the non-destructiveness conjunct applied at a concrete
base, override and key. -/
theorem c5_deep_merge_semantics_witness :
    lookupA [("a", PyVal.int 5)] "b" = Option.none ∧
    lookupA (mergeConfigs [("b", PyVal.int 7)] [("a", PyVal.int 5)]) "b"
      = some (PyVal.int 7) := by
  refine ⟨by simp [lookupA], ?_⟩
  rw [c5_deep_merge_semantics.1 [("b", PyVal.int 7)] [("a", PyVal.int 5)] "b"
    (by simp [lookupA])]
  simp [lookupA]

/-! ### C1 — layer precedence -/

/-- Claim C1, counterexample: the environment layer defines the top-level key
`llm` (as provider-to-"openai"), no file layer and no CLI override are
present, yet the resolved configuration's value at `llm` is not the
environment layer's value — deep merge combined it with the defaults. -/
theorem c1_counterexample :
    lookupA (loadEnvConfig (some "openai") Option.none) "llm"
        = some (PyVal.obj [("provider", PyVal.str "openai")]) ∧
    lookupA (loadConfig Option.none (loadEnvConfig (some "openai") Option.none)) "llm"
        ≠ some (PyVal.obj [("provider", PyVal.str "openai")]) := by
  constructor
  · simp [loadEnvConfig, lookupA, setA]
  · have hc : loadConfig Option.none (loadEnvConfig (some "openai") Option.none)
        = [("llm", PyVal.obj
            [("provider", PyVal.str "openai"),
             ("perplexity", PyVal.obj [("model", PyVal.str "sonar-pro")]),
             ("openai", PyVal.obj [("model", PyVal.str "gpt-4-turbo-preview")]),
             ("anthropic", PyVal.obj [("model", PyVal.str "claude-3-opus-20240229")]),
             ("xai", PyVal.obj [("model", PyVal.str "grok-1")])])] := by
      simp [loadConfig, loadEnvConfig, getDefaults, mergeConfigs, mergeEntry, lookupA, setA]
    rw [hc]
    simp [lookupA]

/-- Claim C1, amended: resolution layers defaults, file and environment with the
recursive merge (`_load_config`), and at every key where the file and
environment layers do not hold mappings the resolved value is E's if E defines
the key, else F's, else D's — mapping-valued keys are deep-merged recursively
instead of replaced wholesale; the explicit CLI model override is applied by
direct assignment afterwards and therefore always wins for the `model` key of
the resolved selection. -/
theorem c1_layer_precedence_amended :
    (∀ (F E : Dict), F ≠ [] →
        loadConfig (some F) E = mergeConfigs (mergeConfigs getDefaults F) E) ∧
    (∀ (D F E : Dict) (k : String),
        keysNodup F → keysNodup E → notObjAt F k = true → notObjAt E k = true →
        lookupA (mergeConfigs (mergeConfigs D F) E) k =
          match lookupA E k with
          | some v => some v
          | Option.none =>
            match lookupA F k with
            | some v => some v
            | Option.none => lookupA D k) ∧
    (∀ (config : Dict) (env : String → Option String) (po : Option String) (m : String),
        m ≠ "" →
        lookupA (getLlmProviderSelection config env po (some m)).config "model"
          = some (PyVal.str m)) := by
  refine ⟨?_, ?_, ?_⟩
  · intro F E hF
    cases F with
    | nil => exact absurd rfl hF
    | cons a l => rfl
  · intro D F E k hF hE hnF hnE
    rw [lookupA_mergeConfigs _ E k hE, lookupA_mergeConfigs D F k hF]
    rcases hEk : lookupA E k with _ | ve
    · rw [mergeAt_none_right]
      rcases hFk : lookupA F k with _ | vf
      · rw [mergeAt_none_right]
      · rw [mergeAt_some_of_not_obj _ vf (by simpa [notObjAt, hFk] using hnF)]
    · rw [mergeAt_some_of_not_obj _ ve (by simpa [notObjAt, hEk] using hnE)]
  · intro config env po m hm
    unfold getLlmProviderSelection
    rcases po with _ | ov
    · simp [hm, lookupA_setA_same]
    · by_cases hov : ov = "" <;> simp [hm, hov, lookupA_setA_same]

/-- Witness for C1's amended theorem: layer precedence at the key `provider`
(environment value wins), and a CLI model override landing in the resolved
selection, both at concrete inputs. -/
theorem c1_layer_precedence_amended_witness :
    lookupA (mergeConfigs (mergeConfigs
        [("provider", PyVal.str "perplexity")]
        [("provider", PyVal.str "from-file"), ("extra", PyVal.int 1)])
        [("provider", PyVal.str "from-env")]) "provider"
      = some (PyVal.str "from-env") ∧
    lookupA (getLlmProviderSelection getDefaults (fun _ => Option.none)
        Option.none (some "m2")).config "model"
      = some (PyVal.str "m2") := by
  constructor
  · rw [c1_layer_precedence_amended.2.1
      [("provider", PyVal.str "perplexity")]
      [("provider", PyVal.str "from-file"), ("extra", PyVal.int 1)]
      [("provider", PyVal.str "from-env")] "provider"
      (by decide) (by decide) (by decide) (by decide)]
    simp [lookupA]
  · exact c1_layer_precedence_amended.2.2 getDefaults (fun _ => Option.none)
      Option.none "m2" (by decide)

/-! ### C4 — the environment model variable and the selected provider -/

/-- Claim C4, counterexample: the config file selects provider "openai",
the selected-provider environment variable is unset and the selected-model
environment variable holds "env-model", yet the resolved selection for
"openai" keeps the default model — the environment model value landed under
"perplexity", the environment layer's own default, not under the
file-selected provider. -/
theorem c4_counterexample :
    (getProviderConfig
        (loadConfig (some [("llm", PyVal.obj [("provider", PyVal.str "openai")])])
          (loadEnvConfig Option.none (some "env-model")))
        (fun _ => Option.none)).name = "openai" ∧
    lookupA (getProviderConfig
        (loadConfig (some [("llm", PyVal.obj [("provider", PyVal.str "openai")])])
          (loadEnvConfig Option.none (some "env-model")))
        (fun _ => Option.none)).config "model"
      = some (PyVal.str "gpt-4-turbo-preview") ∧
    lookupA (getProviderConfig
        (loadConfig (some [("llm", PyVal.obj [("provider", PyVal.str "openai")])])
          (loadEnvConfig Option.none (some "env-model")))
        (fun _ => Option.none)).config "model"
      ≠ some (PyVal.str "env-model") ∧
    lookupA (llmSection
        (loadConfig (some [("llm", PyVal.obj [("provider", PyVal.str "openai")])])
          (loadEnvConfig Option.none (some "env-model")))) "perplexity"
      = some (PyVal.obj [("model", PyVal.str "env-model")]) := by
  have hc : loadConfig (some [("llm", PyVal.obj [("provider", PyVal.str "openai")])])
      (loadEnvConfig Option.none (some "env-model"))
      = [("llm", PyVal.obj
          [("provider", PyVal.str "openai"),
           ("perplexity", PyVal.obj [("model", PyVal.str "env-model")]),
           ("openai", PyVal.obj [("model", PyVal.str "gpt-4-turbo-preview")]),
           ("anthropic", PyVal.obj [("model", PyVal.str "claude-3-opus-20240229")]),
           ("xai", PyVal.obj [("model", PyVal.str "grok-1")])])] := by
    simp [loadConfig, loadEnvConfig, getDefaults, mergeConfigs, mergeEntry, lookupA, setA]
  rw [hc]
  refine ⟨?_, ?_, ?_, ?_⟩ <;>
    simp [getProviderConfig, llmSection, lookupA, getApiKey, envVarMap, pyLower]

/-- Claim C4, amended: when the selected-model environment variable is set
(truthy), `_load_env_config` files `model` under the provider selected within
the environment layer itself — the selected-provider environment variable's
value when that is set, else the built-in default "perplexity" — and never
consults the config file's selection; the environment layer carries no
`provider` key when the provider variable is unset, so a file-selected
provider's model is unaffected. -/
theorem c4_env_model_amended :
    ∀ (m : String), m ≠ "" →
      (lookupA (llmSection (loadEnvConfig Option.none (some m))) "perplexity"
          = some (PyVal.obj [("model", PyVal.str m)]) ∧
       lookupA (llmSection (loadEnvConfig Option.none (some m))) "provider"
          = Option.none) ∧
      ∀ (p : String), p ≠ "" →
        lookupA (llmSection (loadEnvConfig (some p) (some m))) p
          = some (PyVal.obj [("model", PyVal.str m)]) := by
  intro m hm
  constructor
  · constructor <;> simp [loadEnvConfig, llmSection, lookupA, setA, hm]
  · intro p hp
    have h1 : loadEnvConfig (some p) (some m)
        = [("llm", PyVal.obj (setA [("provider", PyVal.str p)] p
            (PyVal.obj [("model", PyVal.str m)])))] := by
      simp [loadEnvConfig, lookupA, setA, hm, hp]
    rw [h1]
    have h2 : llmSection [("llm", PyVal.obj (setA [("provider", PyVal.str p)] p
        (PyVal.obj [("model", PyVal.str m)])))]
        = setA [("provider", PyVal.str p)] p (PyVal.obj [("model", PyVal.str m)]) := by
      simp [llmSection, lookupA]
    rw [h2]
    exact lookupA_setA_same _ _ _

/-- Witness for C4's amended theorem at concrete environment values. -/
theorem c4_env_model_amended_witness :
    lookupA (llmSection (loadEnvConfig Option.none (some "env-m"))) "perplexity"
      = some (PyVal.obj [("model", PyVal.str "env-m")]) ∧
    lookupA (llmSection (loadEnvConfig (some "xai") (some "env-m"))) "xai"
      = some (PyVal.obj [("model", PyVal.str "env-m")]) :=
  ⟨(c4_env_model_amended "env-m" (by decide)).1.1,
   (c4_env_model_amended "env-m" (by decide)).2 "xai" (by decide)⟩

/-! ### C10 — provider-name override keeps the base provider's config -/

/-- Claim C10: with a truthy provider-name override, the resolved selection's
name is the override; every key that the override provider's own sub-config
(in the merged configuration) does not define keeps the originally selected
provider's resolved value — including an injected `api_key` — and no API-key
lookup is performed for the override provider itself: the result does not
depend on the value of the override provider's credential variable when that
differs from the originally selected provider's. -/
theorem c10_provider_override_keeps_base_config :
    ∀ (config : Dict) (env : String → Option String) (ov : String) (k : String),
      ov ≠ "" →
      ((getLlmProviderSelection config env (some ov) Option.none).name = ov) ∧
      (lookupA (match lookupA (llmSection config) ov with
                | some (PyVal.obj sp) => sp
                | _ => []) k = Option.none →
        lookupA (getLlmProviderSelection config env (some ov) Option.none).config k
          = lookupA (getProviderConfig config env).config k) ∧
      (∀ (V : String) (w : Option String),
        envVarMap (pyLower ov) = some V →
        envVarMap (pyLower (getProviderConfig config env).name) ≠ some V →
        getLlmProviderSelection config (updEnv env V w) (some ov) Option.none
          = getLlmProviderSelection config env (some ov) Option.none) := by
  intro config env ov k hov
  have hpc : ∀ (e : String → Option String),
      getLlmProviderSelection config e (some ov) Option.none
        = ⟨ov, dictUpdate (getProviderConfig config e).config
            (match lookupA (llmSection config) ov with
             | some (PyVal.obj sp) => sp
             | _ => [])⟩ := by
    intro e
    simp [getLlmProviderSelection, hov]
  refine ⟨by rw [hpc], ?_, ?_⟩
  · intro hspec
    rw [hpc]
    exact lookupA_dictUpdate_not_overridden _ _ k hspec
  · intro V w hovV horig
    rw [hpc, hpc]
    have henv : getProviderConfig config (updEnv env V w) = getProviderConfig config env := by
      simp only [getProviderConfig]
      have hkey : getApiKey (updEnv env V w)
          (match lookupA (llmSection config) "provider" with
           | some (PyVal.str s) => s
           | _ => "perplexity")
          = getApiKey env
          (match lookupA (llmSection config) "provider" with
           | some (PyVal.str s) => s
           | _ => "perplexity") := by
        have hname : (getProviderConfig config env).name
            = (match lookupA (llmSection config) "provider" with
               | some (PyVal.str s) => s
               | _ => "perplexity") := rfl
        rw [hname] at horig
        unfold getApiKey
        rcases hv : envVarMap (pyLower
            (match lookupA (llmSection config) "provider" with
             | some (PyVal.str s) => s
             | _ => "perplexity")) with _ | v₀
        · rfl
        · have hne : v₀ ≠ V := fun he => horig (by rw [hv, he])
          simp [updEnv, hne]
      rw [hkey]
    rw [henv]

/-- Witness for C10: the file selects "openai" with its key injected from the
environment; overriding the provider to "xai" keeps the injected `api_key`
(xai's sub-config does not define one), and changing the xai credential
variable does not change the result. -/
theorem c10_provider_override_keeps_base_config_witness :
    (getLlmProviderSelection
        [("llm", PyVal.obj
          [("provider", PyVal.str "openai"),
           ("openai", PyVal.obj [("model", PyVal.str "gpt-4o")]),
           ("xai", PyVal.obj [("model", PyVal.str "grok-1")])])]
        (fun v => if v = "OPENAI_API_KEY" then some "sk-test" else Option.none)
        (some "xai") Option.none).name = "xai" ∧
    lookupA (getLlmProviderSelection
        [("llm", PyVal.obj
          [("provider", PyVal.str "openai"),
           ("openai", PyVal.obj [("model", PyVal.str "gpt-4o")]),
           ("xai", PyVal.obj [("model", PyVal.str "grok-1")])])]
        (fun v => if v = "OPENAI_API_KEY" then some "sk-test" else Option.none)
        (some "xai") Option.none).config "api_key"
      = some (PyVal.str "sk-test") ∧
    getLlmProviderSelection
        [("llm", PyVal.obj
          [("provider", PyVal.str "openai"),
           ("openai", PyVal.obj [("model", PyVal.str "gpt-4o")]),
           ("xai", PyVal.obj [("model", PyVal.str "grok-1")])])]
        (updEnv (fun v => if v = "OPENAI_API_KEY" then some "sk-test" else Option.none)
          "XAI_API_KEY" (some "zzz"))
        (some "xai") Option.none
      = getLlmProviderSelection
        [("llm", PyVal.obj
          [("provider", PyVal.str "openai"),
           ("openai", PyVal.obj [("model", PyVal.str "gpt-4o")]),
           ("xai", PyVal.obj [("model", PyVal.str "grok-1")])])]
        (fun v => if v = "OPENAI_API_KEY" then some "sk-test" else Option.none)
        (some "xai") Option.none := by
  have h := c10_provider_override_keeps_base_config
    [("llm", PyVal.obj
      [("provider", PyVal.str "openai"),
       ("openai", PyVal.obj [("model", PyVal.str "gpt-4o")]),
       ("xai", PyVal.obj [("model", PyVal.str "grok-1")])])]
    (fun v => if v = "OPENAI_API_KEY" then some "sk-test" else Option.none)
    "xai" "api_key" (by decide)
  refine ⟨h.1, ?_, h.2.2 "XAI_API_KEY" (some "zzz") (by decide) (by decide)⟩
  rw [h.2.1 (by simp [llmSection, lookupA])]
  simp [getProviderConfig, llmSection, lookupA, setA, getApiKey, envVarMap, pyLower]

/-! ### C6 — registry round trip -/

theorem joinSep_mem_infix (sep : String) (names : List String) (n : String)
    (h : n ∈ names) : ∃ p q, joinSep sep names = p ++ n ++ q := by
  induction names with
  | nil => cases h
  | cons a rest ih =>
    rcases rest with _ | ⟨b, rest'⟩
    · have hna : n = a := List.mem_singleton.mp h
      subst hna
      exact ⟨"", "", by simp [joinSep]⟩
    · rcases List.mem_cons.mp h with hna | hmem
      · subst hna
        refine ⟨"", sep ++ joinSep sep (b :: rest'), ?_⟩
        rw [joinSep]
        simp [String.append_assoc]
      · obtain ⟨p, q, hpq⟩ := ih hmem
        refine ⟨a ++ sep ++ p, q, ?_⟩
        rw [joinSep, hpq]
        simp [String.append_assoc]

/-- Claim C6: after registering a constructor under a name, `get_provider`
with that name returns an instance constructed with exactly the given config;
any case variant of the name (same lower-casing) returns the same; and
`get_provider` with an unregistered name fails with a `ValueError` whose
message contains every currently registered name. -/
theorem c6_registry_round_trip :
    ∀ (π : Type) (r : Registry π) (name : String) (ctor : Dict → π) (cfg cfg₂ : Dict)
      (variant other : String),
      pyLower variant = pyLower name →
      lookupA (registerProvider r name ctor) (pyLower other) = Option.none →
      getProviderR (registerProvider r name ctor) name cfg = Except.ok (ctor cfg) ∧
      getProviderR (registerProvider r name ctor) variant cfg = Except.ok (ctor cfg) ∧
      ∃ msg, getProviderR (registerProvider r name ctor) other cfg₂
          = Except.error (PyErr.valueError msg) ∧
        ∀ nm ∈ listProviders (registerProvider r name ctor), ∃ p q, msg = p ++ nm ++ q := by
  intro π r name ctor cfg cfg₂ variant other hvar hother
  refine ⟨?_, ?_, ?_⟩
  · unfold getProviderR registerProvider
    rw [lookupA_setA_same]
  · unfold getProviderR registerProvider
    rw [hvar, lookupA_setA_same]
  · refine ⟨"Unknown LLM provider: " ++ sq ++ other ++ sq ++ ". Available providers: "
        ++ joinSep ", " (keysA (registerProvider r name ctor)), ?_, ?_⟩
    · unfold getProviderR
      rw [hother]
    · intro nm hnm
      obtain ⟨p, q, hpq⟩ := joinSep_mem_infix ", " (keysA (registerProvider r name ctor)) nm
        (by simpa [listProviders] using hnm)
      refine ⟨"Unknown LLM provider: " ++ sq ++ other ++ sq ++ ". Available providers: "
          ++ p, q, ?_⟩
      rw [hpq]
      simp [String.append_assoc]

/-- Witness for C6 on a concrete registry: register "foo" with the identity
constructor, fetch it as "FOO", and fetch "bar" to get the error listing
"foo". -/
theorem c6_registry_round_trip_witness :
    pyLower "FOO" = pyLower "foo" ∧
    getProviderR (registerProvider ([] : Registry Dict) "foo" (fun c => c)) "FOO"
        [("k", PyVal.int 1)] = Except.ok [("k", PyVal.int 1)] ∧
    ∃ msg, getProviderR (registerProvider ([] : Registry Dict) "foo" (fun c => c)) "bar" []
        = Except.error (PyErr.valueError msg) ∧
      ∀ nm ∈ listProviders (registerProvider ([] : Registry Dict) "foo" (fun c => c)),
        ∃ p q, msg = p ++ nm ++ q := by
  have h := c6_registry_round_trip Dict [] "foo" (fun c => c) [("k", PyVal.int 1)] []
    "FOO" "bar" (by decide) (by rfl)
  exact ⟨by decide, h.2.1, h.2.2⟩

/-! ### C7 — construction-time validation -/

/-- Claim C7, counterexample: a configuration whose `api_key` is present but
empty, with a supported model, is rejected by `validate_config` (and
construction fails) — validation checks falsiness, not absence, so the
claim's "precisely when the credential is absent or the model unsupported"
fails on this input. -/
theorem c7_counterexample :
    lookupA [("api_key", PyVal.str ""), ("model", PyVal.str "gpt-4")] "api_key"
      = some (PyVal.str "") ∧
    modelInList (modelOf [("api_key", PyVal.str ""), ("model", PyVal.str "gpt-4")]
        openaiDefaultModel) openaiSupportedModels = true ∧
    openaiValidateConfig [("api_key", PyVal.str ""), ("model", PyVal.str "gpt-4")]
      = Except.error (PyErr.valueError
          ("OpenAI API key is required. Set OPENAI_API_KEY environment variable or provide "
            ++ sq ++ "api_key" ++ sq ++ " in configuration.")) ∧
    (openaiInit [("api_key", PyVal.str ""), ("model", PyVal.str "gpt-4")]).1
      = Except.error (PyErr.valueError
          ("OpenAI API key is required. Set OPENAI_API_KEY environment variable or provide "
            ++ sq ++ "api_key" ++ sq ++ " in configuration.")) := by
  refine ⟨rfl, rfl, rfl, rfl⟩

/-- Claim C7, amended: constructing the OpenAI adapter invokes
`validate_config` exactly once; validation fails with a `ValueError` precisely
when the configured `api_key` is falsy (absent, None, or an empty string) or
the effective model is not in the declared supported-model list; and when
validation returns normally, construction succeeds and stores exactly the
given configuration. -/
theorem c7_validation_amended :
    ∀ (config : Dict),
      (openaiInit config).2 = 1 ∧
      ((∃ e, openaiValidateConfig config = Except.error e) ↔
        (PyVal.truthy ((lookupA config "api_key").getD PyVal.none) = false ∨
         modelInList (modelOf config openaiDefaultModel) openaiSupportedModels = false)) ∧
      (∀ b, openaiValidateConfig config = Except.ok b →
        (openaiInit config).1 = Except.ok ⟨config⟩) := by
  intro config
  refine ⟨rfl, ?_, ?_⟩
  · constructor
    · rintro ⟨e, he⟩
      by_cases h1 : PyVal.truthy ((lookupA config "api_key").getD PyVal.none) = false
      · exact Or.inl h1
      · by_cases h2 : modelInList (modelOf config openaiDefaultModel) openaiSupportedModels
            = false
        · exact Or.inr h2
        · exfalso
          simp only [Bool.not_eq_false] at h1 h2
          simp [openaiValidateConfig, h1, h2] at he
    · intro h
      by_cases h1 : PyVal.truthy ((lookupA config "api_key").getD PyVal.none) = false
      · exact ⟨PyErr.valueError
            ("OpenAI API key is required. Set OPENAI_API_KEY environment variable or provide "
              ++ sq ++ "api_key" ++ sq ++ " in configuration."),
          by simp [openaiValidateConfig, h1]⟩
      · have h2 : modelInList (modelOf config openaiDefaultModel) openaiSupportedModels
            = false := by
          rcases h with h | h
          · exact absurd h h1
          · exact h
        simp only [Bool.not_eq_false] at h1
        exact ⟨PyErr.valueError
            ("Unsupported OpenAI model: " ++ pyStr (modelOf config openaiDefaultModel)
              ++ ". Supported models: " ++ joinSep ", " openaiSupportedModels),
          by simp [openaiValidateConfig, h1, h2]⟩
  · intro b hb
    have hbtrue : openaiValidateConfig config = Except.ok true := by
      unfold openaiValidateConfig at hb ⊢
      by_cases h1 : PyVal.truthy ((lookupA config "api_key").getD PyVal.none) = false
      · simp [h1] at hb
      · by_cases h2 : modelInList (modelOf config openaiDefaultModel) openaiSupportedModels
            = false
        · simp only [Bool.not_eq_false] at h1
          simp [h1, h2] at hb
        · simp only [Bool.not_eq_false] at h1 h2
          simp [h1, h2]
    unfold openaiInit
    simp [hbtrue]

/-- Witness for C7's amended theorem: a config whose `api_key` is a non-empty
string and whose model defaults to the supported default validates and
constructs. -/
theorem c7_validation_amended_witness :
    (openaiInit [("api_key", PyVal.str "k")]).2 = 1 ∧
    openaiValidateConfig [("api_key", PyVal.str "k")] = Except.ok true ∧
    (openaiInit [("api_key", PyVal.str "k")]).1
      = Except.ok ⟨[("api_key", PyVal.str "k")]⟩ :=
  ⟨(c7_validation_amended [("api_key", PyVal.str "k")]).1, rfl,
   (c7_validation_amended [("api_key", PyVal.str "k")]).2.2 true rfl⟩

/-! ### C8 — error propagation from query -/

/-- Claim C8, counterexample: when the remote call fails, `query` re-raises
the original error itself; the result is the unwrapped cause, not a
ProviderQueryError-style wrapper (no such wrapping exists in the code). -/
theorem c8_counterexample :
    openaiQuery ⟨[("api_key", PyVal.str "k")]⟩ (Except.error (PyErr.other "boom"))
      = Except.error (PyErr.other "boom") ∧
    ∀ cause, PyErr.other "boom" ≠ PyErr.providerQueryError cause :=
  ⟨rfl, fun _ h => PyErr.noConfusion h⟩

/-- Claim C8, amended: when the remote call inside `query` fails, both the
OpenAI and the Anthropic adapter log and re-raise the original exception
unchanged — the cause is preserved and the error is never swallowed into a
normal envelope — but it is not wrapped in any dedicated query-error type. -/
theorem c8_error_propagation_amended :
    ∀ (a : OpenAIAdapter) (b : AnthropicAdapter) (e : PyErr),
      openaiQuery a (Except.error e) = Except.error e ∧
      anthropicQuery b (Except.error e) = Except.error e :=
  fun _ _ _ => ⟨rfl, rfl⟩

/-! ### C2 — content-extraction precedence -/

/-- Claim C2, counterexample: on a raw object exposing only
`choices: [(message: (content: "X"))]`, the Anthropic adapter's extraction
does not return "X" — it has no `choices` step at all and falls through to
stringifying the whole object — while the OpenAI adapter's extraction does
return "X". The claim's "each adapter" fails for the Anthropic adapter. -/
theorem c2_counterexample :
    anthropicExtractContent (PyVal.obj [("choices", PyVal.list
        [PyVal.obj [("message", PyVal.obj [("content", PyVal.str "X")])]])]) ≠ "X" ∧
    openaiExtractContent (PyVal.obj [("choices", PyVal.list
        [PyVal.obj [("message", PyVal.obj [("content", PyVal.str "X")])]])])
      = Except.ok (some "X") := by
  constructor
  · have hval : anthropicExtractContent (PyVal.obj [("choices", PyVal.list
        [PyVal.obj [("message", PyVal.obj [("content", PyVal.str "X")])]])])
        = "obj(choices: [obj(message: obj(content: X))])" := by
      simp [anthropicExtractContent, hasattr, PyVal.attr?, lookupA, attrD,
        pyStr, pyStrList, pyStrFields]
    rw [hval]
    decide
  · simp [openaiExtractContent, hasattr, PyVal.attr?, lookupA, attrD, pyIndex0,
      PyVal.truthy, pyStr]

/-- Claim C2, amended: first-match precedence holds per adapter. In both
adapters a present `content` field wins over everything (the OpenAI adapter
stringifies it as-is, the Anthropic adapter applies its first-block special
case to list values); an object with none of the recognized fields is
stringified whole by both, without raising; but the `choices` step exists only
in the OpenAI adapter — the Anthropic extraction stringifies a choices-only
object instead of reading `choices[0].message.content`. -/
theorem c2_extraction_precedence_amended :
    (∀ (r v : PyVal), PyVal.attr? r "content" = some v →
        openaiExtractContent r = Except.ok (some (pyStr v)) ∧
        anthropicExtractContent r =
          (match v with
           | PyVal.list (x :: _) =>
             match PyVal.attr? x "text" with
             | some t => pyStr t
             | Option.none => pyStr x
           | _ => pyStr v)) ∧
    (∀ (r v : PyVal), PyVal.attr? r "content" = Option.none →
        PyVal.attr? r "text" = some v →
        openaiExtractContent r = Except.ok (some (pyStr v)) ∧
        anthropicExtractContent r = pyStr v) ∧
    (∀ (r v : PyVal), PyVal.attr? r "content" = Option.none →
        PyVal.attr? r "text" = Option.none → PyVal.attr? r "message" = some v →
        openaiExtractContent r = Except.ok (some (pyStr v)) ∧
        anthropicExtractContent r = pyStr v) ∧
    (∀ (r v : PyVal), PyVal.attr? r "content" = Option.none →
        PyVal.attr? r "text" = Option.none → PyVal.attr? r "message" = Option.none →
        PyVal.attr? r "result" = some v →
        openaiExtractContent r = Except.ok (some (pyStr v)) ∧
        anthropicExtractContent r = pyStr v) ∧
    (∀ (r : PyVal),
        hasattr r "content" = false → hasattr r "text" = false →
        hasattr r "message" = false → hasattr r "result" = false →
        hasattr r "choices" = false →
        openaiExtractContent r = Except.ok (some (pyStr r)) ∧
        anthropicExtractContent r = pyStr r) ∧
    openaiExtractContent (PyVal.obj [("choices", PyVal.list
        [PyVal.obj [("message", PyVal.obj [("content", PyVal.str "X")])]])])
      = Except.ok (some "X") ∧
    anthropicExtractContent (PyVal.obj [("choices", PyVal.list
        [PyVal.obj [("message", PyVal.obj [("content", PyVal.str "X")])]])])
      = pyStr (PyVal.obj [("choices", PyVal.list
        [PyVal.obj [("message", PyVal.obj [("content", PyVal.str "X")])]])]) := by
  refine ⟨?_, ?_, ?_, ?_, ?_, ?_, ?_⟩
  · intro r v hv
    have hh : hasattr r "content" = true := by simp [hasattr, hv]
    have hd : attrD r "content" = v := by simp [attrD, hv]
    constructor
    · simp [openaiExtractContent, hh, hd]
    · rcases v with _ | _ | _ | _ | xs | fs
      · simp [anthropicExtractContent, hasattr, attrD, hv]
      · simp [anthropicExtractContent, hasattr, attrD, hv]
      · simp [anthropicExtractContent, hasattr, attrD, hv]
      · simp [anthropicExtractContent, hasattr, attrD, hv]
      · rcases xs with _ | ⟨x, rest⟩
        · simp [anthropicExtractContent, hasattr, attrD, hv]
        · rcases hx : PyVal.attr? x "text" with _ | t
          · simp [anthropicExtractContent, hasattr, attrD, hv, hx]
          · simp [anthropicExtractContent, hasattr, attrD, hv, hx]
      · simp [anthropicExtractContent, hasattr, attrD, hv]
  · intro r v h1 h2
    constructor
    · simp [openaiExtractContent, hasattr, attrD, h1, h2]
    · simp [anthropicExtractContent, hasattr, attrD, h1, h2]
  · intro r v h1 h2 h3
    constructor
    · simp [openaiExtractContent, hasattr, attrD, h1, h2, h3]
    · simp [anthropicExtractContent, hasattr, attrD, h1, h2, h3]
  · intro r v h1 h2 h3 h4
    constructor
    · simp [openaiExtractContent, hasattr, attrD, h1, h2, h3, h4]
    · simp [anthropicExtractContent, hasattr, attrD, h1, h2, h3, h4]
  · intro r h1 h2 h3 h4 h5
    constructor
    · simp [openaiExtractContent, h1, h2, h3, h4, h5]
    · simp [anthropicExtractContent, h1, h2, h3, h4]
  · simp [openaiExtractContent, hasattr, PyVal.attr?, lookupA, attrD, pyIndex0,
      PyVal.truthy, pyStr]
  · simp [anthropicExtractContent, hasattr, PyVal.attr?, lookupA]

/-- Witness for C2's amended theorem: the content-wins conjunct at an object
with both `content` and `choices`, and the stringify-fallback conjunct at an
object with none of the recognized fields. -/
theorem c2_extraction_precedence_amended_witness :
    openaiExtractContent (PyVal.obj [("content", PyVal.str "C"),
        ("choices", PyVal.list [PyVal.obj [("text", PyVal.str "W")]])])
      = Except.ok (some "C") ∧
    anthropicExtractContent (PyVal.obj [("content", PyVal.str "C"),
        ("choices", PyVal.list [PyVal.obj [("text", PyVal.str "W")]])])
      = "C" ∧
    openaiExtractContent (PyVal.obj [("other", PyVal.int 3)])
      = Except.ok (some (pyStr (PyVal.obj [("other", PyVal.int 3)]))) ∧
    anthropicExtractContent (PyVal.obj [("other", PyVal.int 3)])
      = pyStr (PyVal.obj [("other", PyVal.int 3)]) := by
  have h1 := (c2_extraction_precedence_amended.1 (PyVal.obj [("content", PyVal.str "C"),
      ("choices", PyVal.list [PyVal.obj [("text", PyVal.str "W")]])])
      (PyVal.str "C") (by rfl))
  have h2 := (c2_extraction_precedence_amended.2.2.2.2.1 (PyVal.obj [("other", PyVal.int 3)])
      rfl rfl rfl rfl rfl)
  refine ⟨?_, ?_, h2.1, h2.2⟩
  · rw [h1.1]
    have : pyStr (PyVal.str "C") = "C" := by simp [pyStr]
    rw [this]
  · rw [h1.2]
    simp [pyStr]

/-! ### C9 — the multi-block content special case -/

/-- Claim C9, counterexample: on a raw object whose `content` is a one-block
list with block text "T", the Anthropic adapter extracts "T", but the OpenAI
adapter stringifies the whole list — it has no multi-block special case, so
the claim's "every adapter" fails. -/
theorem c9_counterexample :
    anthropicExtractContent
        (PyVal.obj [("content", PyVal.list [PyVal.obj [("text", PyVal.str "T")]])])
      = "T" ∧
    openaiExtractContent
        (PyVal.obj [("content", PyVal.list [PyVal.obj [("text", PyVal.str "T")]])])
      = Except.ok (some (pyStr (PyVal.list [PyVal.obj [("text", PyVal.str "T")]]))) ∧
    openaiExtractContent
        (PyVal.obj [("content", PyVal.list [PyVal.obj [("text", PyVal.str "T")]])])
      ≠ Except.ok (some "T") := by
  refine ⟨?_, ?_, ?_⟩
  · simp [anthropicExtractContent, hasattr, PyVal.attr?, lookupA, attrD, pyStr]
  · simp [openaiExtractContent, hasattr, PyVal.attr?, lookupA, attrD]
  · have hval : openaiExtractContent
        (PyVal.obj [("content", PyVal.list [PyVal.obj [("text", PyVal.str "T")]])])
        = Except.ok (some "[obj(text: T)]") := by
      simp [openaiExtractContent, hasattr, PyVal.attr?, lookupA, attrD,
        pyStr, pyStrList, pyStrFields]
    rw [hval]
    simp

/-- Claim C9, amended: only the Anthropic adapter applies the multi-block
special case — when `content` is a non-empty list it takes the first block's
`text` if exposed, else stringifies that first block; the OpenAI adapter
stringifies the `content` value as-is, i.e. the whole list. -/
theorem c9_multiblock_amended :
    ∀ (r x : PyVal) (rest : List PyVal),
      PyVal.attr? r "content" = some (PyVal.list (x :: rest)) →
      anthropicExtractContent r
        = (match PyVal.attr? x "text" with
           | some t => pyStr t
           | Option.none => pyStr x) ∧
      openaiExtractContent r = Except.ok (some (pyStr (PyVal.list (x :: rest)))) := by
  intro r x rest hv
  have hh : hasattr r "content" = true := by simp [hasattr, hv]
  have hd : attrD r "content" = PyVal.list (x :: rest) := by simp [attrD, hv]
  constructor
  · rcases hx : PyVal.attr? x "text" with _ | t
    · simp [anthropicExtractContent, hasattr, attrD, hv, hx]
    · simp [anthropicExtractContent, hasattr, attrD, hv, hx]
  · simp [openaiExtractContent, hh, hd]

/-- Witness for C9's amended theorem at a concrete two-field block. -/
theorem c9_multiblock_amended_witness :
    anthropicExtractContent (PyVal.obj [("content",
        PyVal.list [PyVal.obj [("text", PyVal.str "T"), ("kind", PyVal.str "text")]])])
      = "T" ∧
    openaiExtractContent (PyVal.obj [("content",
        PyVal.list [PyVal.obj [("text", PyVal.str "T"), ("kind", PyVal.str "text")]])])
      = Except.ok (some (pyStr (PyVal.list
          [PyVal.obj [("text", PyVal.str "T"), ("kind", PyVal.str "text")]]))) := by
  have h := c9_multiblock_amended
    (PyVal.obj [("content",
      PyVal.list [PyVal.obj [("text", PyVal.str "T"), ("kind", PyVal.str "text")]])])
    (PyVal.obj [("text", PyVal.str "T"), ("kind", PyVal.str "text")]) [] rfl
  refine ⟨?_, h.2⟩
  rw [h.1]
  simp [PyVal.attr?, lookupA, pyStr]

/-! ### C3 — the envelope's content is a string -/

/-- Claim C3: whenever `query` returns an envelope, that envelope's `content`
is a string — never Python None and never the raw unnormalized object. The
OpenAI adapter raises (at the logging `len` call) whenever its extraction
falls through to None, so no such envelope leaves the method, and the
Anthropic extraction returns a string on every path. -/
theorem c3_envelope_content_is_string :
    ∀ (a : OpenAIAdapter) (b : AnthropicAdapter) (remote : Except PyErr PyVal)
      (res : LLMResponse),
      (openaiQuery a remote = Except.ok res → ∃ s, res.content = PyVal.str s) ∧
      (anthropicQuery b remote = Except.ok res → ∃ s, res.content = PyVal.str s) := by
  intro a b remote res
  constructor
  · intro h
    rcases remote with e | response
    · cases h
    · simp only [openaiQuery] at h
      rcases hx : openaiExtractContent response with e | co
      · rw [hx] at h; cases h
      · rw [hx] at h
        rcases co with _ | s
        · cases h
        · cases h
          exact ⟨s, rfl⟩
  · intro h
    rcases remote with e | response
    · cases h
    · simp only [anthropicQuery] at h
      cases h
      exact ⟨anthropicExtractContent response, rfl⟩

/-- Witness for C3: a concrete OpenAI query against a stubbed remote result
returns an envelope whose content is the string "hi". -/
theorem c3_envelope_content_is_string_witness :
    openaiQuery ⟨[]⟩ (Except.ok (PyVal.obj [("content", PyVal.str "hi")]))
      = Except.ok ⟨PyVal.str "hi", "openai", PyVal.str "gpt-4-turbo-preview",
          Option.none,
          some [("raw_response", PyVal.obj [("content", PyVal.str "hi")]),
                ("response_type", PyVal.str "object")]⟩ ∧
    ∃ s, (⟨PyVal.str "hi", "openai", PyVal.str "gpt-4-turbo-preview",
          Option.none,
          some [("raw_response", PyVal.obj [("content", PyVal.str "hi")]),
                ("response_type", PyVal.str "object")]⟩ : LLMResponse).content
        = PyVal.str s := by
  have hq : openaiQuery ⟨[]⟩ (Except.ok (PyVal.obj [("content", PyVal.str "hi")]))
      = Except.ok ⟨PyVal.str "hi", "openai", PyVal.str "gpt-4-turbo-preview",
          Option.none,
          some [("raw_response", PyVal.obj [("content", PyVal.str "hi")]),
                ("response_type", PyVal.str "object")]⟩ := by
    simp [openaiQuery, openaiExtractContent, hasattr, PyVal.attr?, lookupA, attrD,
      pyStr, modelOf, typeName, openaiDefaultModel]
  exact ⟨hq, (c3_envelope_content_is_string ⟨[]⟩ ⟨[]⟩
    (Except.ok (PyVal.obj [("content", PyVal.str "hi")])) _).1 hq⟩

end RiotPulse
